import Mathlib

/-
  Verification of export_textures/src/main.rs (a SWF texture-exporter binary).

  The embedding models the functions of main.rs over parsed values: byte-level
  SWF/ABC decoding is performed by external crates (ruffle_core swf reader) and
  is represented by already-parsed structures.  A Rust panic (process abort) is
  modelled by the RustResult.panicked constructor carrying the panic message;
  a Rust Result error is modelled by Except.error / ProgResult.err.
-/

namespace ExportTextures

/-- Outcome of running a fragment of the Rust program: either a value, or a
process-terminating panic carrying its message. -/
inductive RustResult (α : Type) where
  | ok : α → RustResult α
  | panicked : String → RustResult α
deriving Repr, DecidableEq

/-- Models the release-mode u32 computation of the source expression
written as open paren i.0 minus 1 close paren cast to usize: subtraction of
1 wraps modulo 2 to the 32, so the reserved index 0 becomes 4294967295. -/
def u32SubOne (i : Nat) : Nat := (i + (2 ^ 32 - 1)) % 2 ^ 32

/-- swf::avm2::types::Namespace - tagged union with 7 kinds, each wrapping one
string-table index (the Index of String newtype is modelled as the raw Nat). -/
inductive Namespace where
  | Namespace (i : Nat)
  | Package (i : Nat)
  | PackageInternal (i : Nat)
  | Protected (i : Nat)
  | Explicit (i : Nat)
  | StaticProtected (i : Nat)
  | Private (i : Nat)
deriving Repr, DecidableEq

/-- The string-table index wrapped by a namespace, whatever its kind. -/
def Namespace.string_index : ExportTextures.Namespace → Nat
  | .Namespace i => i
  | .Package i => i
  | .PackageInternal i => i
  | .Protected i => i
  | .Explicit i => i
  | .StaticProtected i => i
  | .Private i => i

/-- swf::avm2::types::Multiname - the variants matched by get_name in main.rs.
Indices into the constant pool are modelled as raw Nats. -/
inductive Multiname where
  | QName (ns name : Nat)
  | QNameA (ns name : Nat)
  | RTQName (name : Nat)
  | RTQNameA (name : Nat)
  | RTQNameL
  | RTQNameLA
  | Multiname (namespace_set name : Nat)
  | MultinameA (namespace_set name : Nat)
  | MultinameL (namespace_set : Nat)
  | MultinameLA (namespace_set : Nat)
  | TypeName (base_type : Nat) (parameters : List Nat)
deriving Repr, DecidableEq

/-- Is this multiname the fully-qualified QName variant? -/
def Multiname.isQName : ExportTextures.Multiname → Bool
  | .QName _ _ => true
  | _ => false

/-- The three parallel 1-indexed constant-pool tables used by main.rs. -/
structure ConstantPool where
  strings : List String
  namespaces : List Namespace
  multinames : List Multiname
deriving Repr, DecidableEq

/-- A class instance record; only the two fields read by main.rs are kept
(name and super_name, both Index of Multiname values). -/
structure Instance where
  name : Nat
  super_name : Nat
deriving Repr, DecidableEq

/-- The parsed ABC file, as produced by Reader::read; only the fields read by
main.rs are kept. -/
structure AbcFile where
  constant_pool : ConstantPool
  instances : List Instance
deriving Repr, DecidableEq

/-- swf::SymbolClassLink - id is a u16 symbol id, class_name the linked class
name (the SwfStr is modelled as its decoded String). -/
structure SymbolClassLink where
  id : Nat
  class_name : String
deriving Repr, DecidableEq

/-- The SWF tags inspected by parse_swf_for_textures.  DoAbc2 carries the
AbcFile obtained from its raw data by the external reader; all tags the loop
ignores are collapsed into Other. -/
inductive Tag where
  | SymbolClass (links : List SymbolClassLink)
  | DoAbc
  | DoAbc2 (abc : AbcFile)
  | Other
deriving Repr, DecidableEq

/-- struct ClassName of main.rs.  The source field named after the Rust
keyword for a package scope is called ns here because that word is a Lean
keyword. -/
structure ClassName where
  ns : String
  name : String
deriving Repr, DecidableEq

/-- struct ExportedTexture of main.rs. -/
structure ExportedTexture where
  classname : ClassName
  supername : ClassName
  id : Option Nat
deriving Repr, DecidableEq

/-- get_namespace_name from main.rs lines 60-70: every kind looks up the
wrapped string index, 1-based, through Vec::get followed by expect, so an
out-of-bounds index panics with the message shown. -/
def get_namespace_name (ns : Namespace) (abc : AbcFile) : RustResult String :=
  match ns with
  | .Namespace i =>
    match abc.constant_pool.strings[u32SubOne i]? with
    | some s => .ok s
    | none => .panicked "Could not get string!"
  | .Package i =>
    match abc.constant_pool.strings[u32SubOne i]? with
    | some s => .ok s
    | none => .panicked "Could not get string!"
  | .PackageInternal i =>
    match abc.constant_pool.strings[u32SubOne i]? with
    | some s => .ok s
    | none => .panicked "Could not get string!"
  | .Protected i =>
    match abc.constant_pool.strings[u32SubOne i]? with
    | some s => .ok s
    | none => .panicked "Could not get string!"
  | .Explicit i =>
    match abc.constant_pool.strings[u32SubOne i]? with
    | some s => .ok s
    | none => .panicked "Could not get string!"
  | .StaticProtected i =>
    match abc.constant_pool.strings[u32SubOne i]? with
    | some s => .ok s
    | none => .panicked "Could not get string!"
  | .Private i =>
    match abc.constant_pool.strings[u32SubOne i]? with
    | some s => .ok s
    | none => .panicked "Could not get string!"

/-- get_name from main.rs lines 72-91: only the QName variant resolves; every
other variant panics with a fixed message carrying no variant information. -/
def get_name (name : Multiname) (abc : AbcFile) : RustResult (String × String) :=
  match name with
  | .QNameA _ _ => .panicked "This name type is not supported yet!"
  | .RTQName _ => .panicked "This name type is not supported yet!"
  | .RTQNameA _ => .panicked "This name type is not supported yet!"
  | .RTQNameL => .panicked "This name type is not supported yet!"
  | .RTQNameLA => .panicked "This name type is not supported yet!"
  | .MultinameA _ _ => .panicked "This name type is not supported yet!"
  | .MultinameL _ => .panicked "This name type is not supported yet!"
  | .MultinameLA _ => .panicked "This name type is not supported yet!"
  | .TypeName _ _ => .panicked "This name type is not supported yet!"
  | .QName nsi ni =>
    match abc.constant_pool.namespaces[u32SubOne nsi]? with
    | none => .panicked "Could not get namespace!"
    | some ns =>
      match get_namespace_name ns abc with
      | .panicked m => .panicked m
      | .ok nsName =>
        match abc.constant_pool.strings[u32SubOne ni]? with
        | none => .panicked "Could not get string!"
        | some n => .ok (nsName, n)
  | .Multiname _ _ => .panicked "This name type is not supported yet!"

/-- The body of the per-instance part of the DoAbc2 arm of the loop in
parse_swf_for_textures (main.rs lines 125-139): look up and resolve name and
super name, then push an ExportedTexture with id None when the namespace of
the name is com.exported.textures and the super name is the pair
com.lachhh.flash / FlashAnimationTexture. -/
def process_instance (abc : AbcFile) (i : Instance) (result : List ExportedTexture) :
    RustResult (List ExportedTexture) :=
  match abc.constant_pool.multinames[u32SubOne i.name]? with
  | none => .panicked "No index at thingy!"
  | some nm =>
    match get_name nm abc with
    | .panicked m => .panicked m
    | .ok name =>
      match abc.constant_pool.multinames[u32SubOne i.super_name]? with
      | none => .panicked "No index at thingy!"
      | some snm =>
        match get_name snm abc with
        | .panicked m => .panicked m
        | .ok supername =>
          if name.1 == "com.exported.textures" && supername.1 == "com.lachhh.flash"
              && supername.2 == "FlashAnimationTexture" then
            .ok (result ++ [{ classname := ⟨name.1, name.2⟩,
                              supername := ⟨supername.1, supername.2⟩,
                              id := none }])
          else
            .ok result

/-- The inner for-loop over abc.instances in parse_swf_for_textures. -/
def process_instances (abc : AbcFile) : List Instance → List ExportedTexture →
    RustResult (List ExportedTexture)
  | [], result => .ok result
  | i :: rest, result =>
    match process_instance abc i result with
    | .panicked m => .panicked m
    | .ok r => process_instances abc rest r

/-- The tag loop of parse_swf_for_textures (main.rs lines 115-141), carried
state: the last SymbolClass link table seen so far, and the accumulated
candidate list.  The DoAbc arm only prints a warning. -/
def scan_go : Option (List SymbolClassLink) × List ExportedTexture → List Tag →
    RustResult (Option (List SymbolClassLink) × List ExportedTexture)
  | st, [] => .ok st
  | (links, result), t :: rest =>
    match t with
    | .SymbolClass vec => scan_go (some vec, result) rest
    | .DoAbc => scan_go (links, result) rest
    | .DoAbc2 abc =>
      match process_instances abc abc.instances result with
      | .panicked m => .panicked m
      | .ok r => scan_go (links, r) rest
    | .Other => scan_go (links, result) rest

/-- The join body of the second loop of parse_swf_for_textures (main.rs lines
144-148): a texture whose formatted full name equals the class name of the
link gets its id set to Some of the link id; otherwise it is unchanged. -/
def apply_link (link : SymbolClassLink) (tex : ExportedTexture) : ExportedTexture :=
  if tex.classname.ns ++ "." ++ tex.classname.name == link.class_name then
    ⟨tex.classname, tex.supername, some link.id⟩
  else
    tex

/-- The outer join loop over the links of the final SymbolClass table. -/
def apply_links : List SymbolClassLink → List ExportedTexture → List ExportedTexture
  | [], result => result
  | link :: rest, result => apply_links rest (result.map (apply_link link))

/-- parse_swf_for_textures from main.rs lines 106-152, over the decoded tag
sequence: scan all tags, then require a SymbolClass table to have been seen
(expect panics otherwise) and join it against the candidates. -/
def parse_swf_for_textures (tags : List Tag) : RustResult (List ExportedTexture) :=
  match scan_go (none, []) tags with
  | .panicked m => .panicked m
  | .ok (none, _) => .panicked "No class links found in swf!"
  | .ok (some links, result) => .ok (apply_links links result)

/-- The render target resolution constant RENDER_WIDTH of main.rs line 22. -/
def RENDER_WIDTH : Nat := 2048

/-- The render target resolution constant RENDER_HEIGHT of main.rs line 23. -/
def RENDER_HEIGHT : Nat := 2048

/-- The part of the SwfMovie value (built by the external ruffle_core crate)
that set_up_player inspects: the ActionScript-3 file attribute of the movie.
A document carrying modern DoAbc2 procedural-bytecode blobs has this
attribute set; a legacy (AVM1) document does not. -/
structure SwfMovieMeta where
  is_action_script_3 : Bool
deriving Repr, DecidableEq

/-- The up-front rejection gate of set_up_player (main.rs lines 161-163): a
movie whose ActionScript-3 attribute is set is rejected with the error shown
when the skip-unsupported flag is passed; everything after this gate builds
the player. -/
def set_up_player_gate (movie : SwfMovieMeta) (skip_flag : Bool) : Except String Unit :=
  if movie.is_action_script_3 && skip_flag then
    .error "Skipping unsupported movie"
  else
    .ok ()

/-- image::RgbaImage, modelled by its dimensions and a pixel function giving
the RGBA value at each coordinate. -/
structure RgbaImage where
  width : Nat
  height : Nat
  pixel : Nat → Nat → Nat × Nat × Nat × Nat

/-- GenericImageView::view followed by to_image: the sub-rectangle of the
image starting at x, y with the given width and height. -/
def RgbaImage.view (img : RgbaImage) (x y w h : Nat) : RgbaImage :=
  ⟨w, h, fun a b => img.pixel (x + a) (y + b)⟩

/-- prepare_stage from main.rs lines 202-249.  The stage manipulation is done
through the external engine; the sizes the engine reports for the
instantiated symbol are the stage_size parameter (the width and height of the
display object after the first settle), and the external lookups that the
code expects to succeed (first movie, movie library, symbol instantiation)
are modelled as succeeding.  The step the code performs on the texture value
itself is the expect on its id field, which panics when the id is None. -/
def prepare_stage (stage_size : ExportedTexture → Nat × Nat)
    (texture : ExportedTexture) : RustResult (Nat × Nat) :=
  match texture.id with
  | none => .panicked "ID is none!"
  | some _ => .ok (stage_size texture)

/-- The outcome of the closure passed to catch_unwind inside take_screenshot:
the render and capture either complete with capture_frame's Option result, or
panic somewhere inside, which catch_unwind turns into an Err value. -/
inductive CaptureOutcome where
  | completed : Option RgbaImage → CaptureOutcome
  | panicked : String → CaptureOutcome

/-- The Rust debug formatting of a String value, as produced by the format
directive used in the take_screenshot error messages (for names without
escape characters it wraps the text in double quotes). -/
def debugFmt (s : String) : String := "\"" ++ s ++ "\""

/-- take_screenshot from main.rs lines 253-276: a completed capture returning
Some image succeeds; a completed capture returning None becomes an error
naming the texture; a panic caught by catch_unwind becomes an error naming
the texture and carrying the panic payload. -/
def take_screenshot (render_result : CaptureOutcome) (texture : ExportedTexture) :
    Except String RgbaImage :=
  match render_result with
  | .completed (some image) => .ok image
  | .completed none =>
    .error ("Unable to capture frame of " ++ debugFmt texture.classname.name)
  | .panicked e =>
    .error ("Unable to capture frame of " ++ debugFmt texture.classname.name ++ ": " ++ e)

/-- The crop offset computed in main.rs lines 334-336:
the u32 difference render minus m is cast to f32, halved, rounded
(f32::round, half away from zero) and cast back to u32.  For m at most
render (and render below 2 to the 24, so that every intermediate value is
exactly representable in f32) this equals the integer (render - m + 1) / 2,
which is the definition used here; the theorem about this definition relates
it to the rounded rational formula. -/
def atlas_offset (render m : Nat) : Nat := ((render - m) + 1) / 2

/-- Round half away from zero over the rationals: the semantics of f32::round
on exactly-representable arguments. -/
def f32_round (q : ℚ) : ℤ := if 0 ≤ q then ⌊q + 1 / 2⌋ else ⌈q - 1 / 2⌉

/-- Outcome of running a fragment of the Rust program that can return a value,
return an error Result (propagated by the question-mark operator), or panic. -/
inductive ProgResult (α : Type) where
  | ok : α → ProgResult α
  | err : String → ProgResult α
  | panicked : String → ProgResult α

/-- The per-texture loop of main (main.rs lines 330-354), over the parsed
texture list: prepare the stage (panics on a missing id), take the screenshot
(question mark propagates its error and halts the loop), crop the captured
atlas at the offsets computed from the document dimensions m_width and
m_height, and record the png file written for the texture, named after its
class name.  Png encoding and the file write are modelled as succeeding. -/
def main_export_loop (m_width m_height : Nat)
    (stage_size : ExportedTexture → Nat × Nat)
    (render : ExportedTexture → CaptureOutcome) :
    List ExportedTexture → ProgResult (List (String × RgbaImage))
  | [] => .ok []
  | texture :: rest =>
    match prepare_stage stage_size texture with
    | .panicked m => .panicked m
    | .ok (width, height) =>
      match take_screenshot (render texture) texture with
      | .error e => .err e
      | .ok image =>
        let half_width := atlas_offset RENDER_WIDTH m_width
        let half_height := atlas_offset RENDER_HEIGHT m_height
        let cropped := image.view half_width half_height width height
        match main_export_loop m_width m_height stage_size render rest with
        | .ok outs => .ok ((texture.classname.name ++ ".png", cropped) :: outs)
        | .err e => .err e
        | .panicked m => .panicked m

/- Derived helpers used to state and prove the theorems (not part of the
source program): the last SymbolClass table of a tag sequence, and the
candidate accumulation of the scan separated from the link tracking. -/

/-- The link table of the last SymbolClass tag of the sequence, if any. -/
def last_symbol_class : List Tag → Option (List SymbolClassLink)
  | [] => none
  | .SymbolClass l :: rest =>
    match last_symbol_class rest with
    | some l2 => some l2
    | none => some l
  | _ :: rest => last_symbol_class rest

/-- The candidate-list component of the scan, ignoring link tracking. -/
def process_tags : List Tag → List ExportedTexture → RustResult (List ExportedTexture)
  | [], result => .ok result
  | .DoAbc2 abc :: rest, result =>
    match process_instances abc abc.instances result with
    | .panicked m => .panicked m
    | .ok r => process_tags rest r
  | _ :: rest, result => process_tags rest result

/-- Link tracking of the scan, ignoring candidates: the folded update of the
links variable over the tag sequence. -/
def links_after (links : Option (List SymbolClassLink)) : List Tag →
    Option (List SymbolClassLink)
  | [] => links
  | .SymbolClass l :: rest => links_after (some l) rest
  | _ :: rest => links_after links rest

/-- The scan state splits: candidates and link tracking are independent. -/
theorem scan_go_split (tags : List Tag) : ∀ links res,
    scan_go (links, res) tags =
      match process_tags tags res with
      | .panicked m => .panicked m
      | .ok r => .ok (links_after links tags, r) := by
  induction tags with
  | nil => intro links res; rfl
  | cons t rest ih =>
    intro links res
    cases t with
    | SymbolClass vec => simp [scan_go, process_tags, links_after, ih]
    | DoAbc => simp [scan_go, process_tags, links_after, ih]
    | DoAbc2 abc =>
      simp only [scan_go, process_tags, links_after]
      cases h : process_instances abc abc.instances res with
      | panicked m => simp
      | ok r => simp [ih]
    | Other => simp [scan_go, process_tags, links_after, ih]

/-- The folded link update equals the last SymbolClass table when one exists,
and the initial value otherwise. -/
theorem links_after_last (tags : List Tag) : ∀ links,
    links_after links tags =
      match last_symbol_class tags with
      | some l => some l
      | none => links := by
  induction tags with
  | nil => intro links; rfl
  | cons t rest ih =>
    intro links
    cases t with
    | SymbolClass vec =>
      simp only [links_after, last_symbol_class, ih]
      cases last_symbol_class rest <;> simp
    | DoAbc => simp [links_after, last_symbol_class, ih]
    | DoAbc2 abc => simp [links_after, last_symbol_class, ih]
    | Other => simp [links_after, last_symbol_class, ih]

/-- Claim C2, counterexample: at the concrete variant RTQNameL, get_name does
not fail with an UnsupportedNameKind error value carrying the variant tag; it
panics (a process-terminating crash) with a fixed message that carries no
variant information, refuting the claim that resolution never crashes the
process. -/
theorem C2_counterexample :
    get_name Multiname.RTQNameL ⟨⟨[], [], []⟩, []⟩ =
      RustResult.panicked "This name type is not supported yet!" := rfl

/-- Claim C2, amended: for every multiname variant other than QName, get_name
panics with the fixed message shown, terminating the process; no error value
is returned and the message does not carry the variant tag. -/
theorem C2_all_non_qname_panic :
    ∀ (nm : Multiname) (abc : AbcFile), nm.isQName = false →
      get_name nm abc = RustResult.panicked "This name type is not supported yet!" := by
  intro nm abc h
  cases nm <;> simp_all [get_name, Multiname.isQName]

/-- Witness for C2_all_non_qname_panic at the concrete variant RTQNameLA. -/
theorem C2_witness :
    Multiname.isQName Multiname.RTQNameLA = false ∧
    get_name Multiname.RTQNameLA ⟨⟨[], [], []⟩, []⟩ =
      RustResult.panicked "This name type is not supported yet!" :=
  ⟨rfl, C2_all_non_qname_panic Multiname.RTQNameLA ⟨⟨[], [], []⟩, []⟩ rfl⟩

/-- Claim C3: evaluating the code at the failing input - a texture candidate
whose id stayed None after the join - shows that prepare_stage panics with
the message ID is none instead of surfacing a reported per-asset resolution
error, and that the main loop therefore crashes rather than reporting: the
claim describes the documented intent, the code the defect. -/
theorem C3_missing_id_panics :
    prepare_stage (fun _ => (0, 0))
        ⟨⟨"com.exported.textures", "Foo"⟩,
         ⟨"com.lachhh.flash", "FlashAnimationTexture"⟩, none⟩ =
      RustResult.panicked "ID is none!" ∧
    main_export_loop 400 300 (fun _ => (0, 0)) (fun _ => CaptureOutcome.completed none)
        [⟨⟨"com.exported.textures", "Foo"⟩,
          ⟨"com.lachhh.flash", "FlashAnimationTexture"⟩, none⟩] =
      ProgResult.panicked "ID is none!" :=
  ⟨rfl, rfl⟩

/-- Claim C6, counterexample: an out-of-bounds string index - index 2 with a
one-string pool, and also the reserved index 0 (which wraps to 4294967295
under the u32 subtraction) - makes get_namespace_name panic with the expect
message rather than take an error branch returning an IndexError value. -/
theorem C6_counterexample :
    get_namespace_name (Namespace.Package 2) ⟨⟨["a"], [], []⟩, []⟩ =
      RustResult.panicked "Could not get string!" ∧
    get_namespace_name (Namespace.Package 0) ⟨⟨["a"], [], []⟩, []⟩ =
      RustResult.panicked "Could not get string!" := by
  exact ⟨rfl, by decide⟩

/-- Claim C6, amended: every constant-pool lookup goes through the
bounds-checked Vec::get returning an Option, so no unchecked dereference is
performed, but a malformed index does not take an error branch: an
out-of-bounds string index makes get_namespace_name panic via expect with
the fixed message, an in-bounds one returns the table entry, and an
out-of-bounds multiname index in the instance loop likewise panics. -/
theorem C6_bounds_checked_but_panics :
    (∀ (ns : Namespace) (abc : AbcFile),
        (abc.constant_pool.strings[u32SubOne ns.string_index]?).isNone = true →
        get_namespace_name ns abc = RustResult.panicked "Could not get string!") ∧
    (∀ (ns : Namespace) (abc : AbcFile) (s : String),
        abc.constant_pool.strings[u32SubOne ns.string_index]? = some s →
        get_namespace_name ns abc = RustResult.ok s) ∧
    (∀ (abc : AbcFile) (i : Instance) (res : List ExportedTexture),
        abc.constant_pool.multinames[u32SubOne i.name]? = none →
        process_instance abc i res = RustResult.panicked "No index at thingy!") := by
  refine ⟨?_, ?_, ?_⟩
  · intro ns abc h
    rw [Option.isNone_iff_eq_none] at h
    cases ns <;> simp only [Namespace.string_index] at h <;> simp [get_namespace_name, h]
  · intro ns abc s h
    cases ns <;> simp only [Namespace.string_index] at h <;> simp [get_namespace_name, h]
  · intro abc i res h
    simp [process_instance, h]

/-- Witness for C6_bounds_checked_but_panics at concrete pools. -/
theorem C6_witness :
    get_namespace_name (Namespace.Explicit 2) ⟨⟨["a"], [], []⟩, []⟩ =
      RustResult.panicked "Could not get string!" ∧
    get_namespace_name (Namespace.Explicit 1) ⟨⟨["a"], [], []⟩, []⟩ = RustResult.ok "a" ∧
    process_instance ⟨⟨[], [], []⟩, []⟩ ⟨1, 1⟩ [] =
      RustResult.panicked "No index at thingy!" :=
  ⟨C6_bounds_checked_but_panics.1 (Namespace.Explicit 2) ⟨⟨["a"], [], []⟩, []⟩ rfl,
   C6_bounds_checked_but_panics.2.1 (Namespace.Explicit 1) ⟨⟨["a"], [], []⟩, []⟩ "a" rfl,
   C6_bounds_checked_but_panics.2.2 ⟨⟨[], [], []⟩, []⟩ ⟨1, 1⟩ [] rfl⟩

/-- Claim C7, counterexample: with the skip-unsupported flag set, a movie
whose ActionScript-3 attribute is set - that is, a document using the modern
procedural-bytecode execution model, the only kind that can carry DoAbc2
blobs - is rejected by the gate, while a legacy (non-AS3) movie passes it:
exactly the opposite of the claim, which says legacy-model documents are
rejected and modern-model documents still processed. -/
theorem C7_counterexample :
    set_up_player_gate ⟨true⟩ true = Except.error "Skipping unsupported movie" ∧
    set_up_player_gate ⟨false⟩ true = Except.ok () := ⟨rfl, rfl⟩

/-- Claim C7, amended: when the skip-unsupported flag is set, set_up_player
rejects exactly those documents whose ActionScript-3 attribute is set (the
modern execution model, per the flag help text: skip unsupported movie types,
currently AVM 2) with the distinguishable error shown, before any capture;
without the flag every document passes the gate. -/
theorem C7_rejects_as3 :
    (∀ m : SwfMovieMeta,
        set_up_player_gate m true = Except.error "Skipping unsupported movie" ↔
          m.is_action_script_3 = true) ∧
    (∀ m : SwfMovieMeta, set_up_player_gate m false = Except.ok ()) := by
  constructor
  · intro m
    cases m with
    | mk b => cases b <;> simp [set_up_player_gate]
  · intro m
    cases m with
    | mk b => cases b <;> simp [set_up_player_gate]

/-- Witness for C7_rejects_as3 at a concrete AS3-flagged movie. -/
theorem C7_witness :
    set_up_player_gate ⟨true⟩ true = Except.error "Skipping unsupported movie" :=
  (C7_rejects_as3.1 ⟨true⟩).mpr rfl

/-- Claim C9: a tag stream with no SymbolClass tag at all makes
parse_swf_for_textures panic with the message shown (the expect on the links
variable), even when the scan succeeded and even when it produced zero
texture candidates, where returning an empty list would be well-defined. -/
theorem C9_no_symbolclass_panics :
    ∀ (tags : List Tag) (res : List ExportedTexture),
      last_symbol_class tags = none →
      process_tags tags [] = RustResult.ok res →
      parse_swf_for_textures tags = RustResult.panicked "No class links found in swf!" := by
  intro tags res h1 h2
  simp [parse_swf_for_textures, scan_go_split, links_after_last, h1, h2]

/-- Witness for C9_no_symbolclass_panics at the empty tag stream (zero
candidates). -/
theorem C9_witness :
    last_symbol_class ([] : List Tag) = none ∧
    process_tags ([] : List Tag) [] = RustResult.ok [] ∧
    parse_swf_for_textures [] = RustResult.panicked "No class links found in swf!" :=
  ⟨rfl, rfl, C9_no_symbolclass_panics [] [] rfl rfl⟩

/-- The ABC files carried by the DoAbc2 tags of a sequence, in order. -/
def abc_tags : List Tag → List AbcFile
  | [] => []
  | .DoAbc2 abc :: rest => abc :: abc_tags rest
  | _ :: rest => abc_tags rest

/-- Candidate accumulation over a list of ABC files. -/
def process_abcs : List AbcFile → List ExportedTexture → RustResult (List ExportedTexture)
  | [], res => .ok res
  | abc :: rest, res =>
    match process_instances abc abc.instances res with
    | .panicked m => .panicked m
    | .ok r => process_abcs rest r

/-- The candidate component of the scan only depends on the DoAbc2 tags. -/
theorem process_tags_eq_abcs (tags : List Tag) : ∀ res,
    process_tags tags res = process_abcs (abc_tags tags) res := by
  induction tags with
  | nil => intro res; rfl
  | cons t rest ih =>
    intro res
    cases t with
    | SymbolClass vec => simp [process_tags, abc_tags, ih]
    | DoAbc => simp [process_tags, abc_tags, ih]
    | DoAbc2 abc =>
      simp only [process_tags, abc_tags, process_abcs]
      cases h : process_instances abc abc.instances res with
      | panicked m => simp
      | ok r => simp [ih]
    | Other => simp [process_tags, abc_tags, ih]

/-- Claim C5: the symbol-id join of parse_swf_for_textures uses exactly the
link table of the last SymbolClass tag of the sequence.  First part: whenever
the candidate scan succeeds and the last SymbolClass table is l, the result
is the candidates joined against l alone.  Second part: an earlier
SymbolClass tag is discarded without effect - prepending one to a sequence
that already contains a SymbolClass tag leaves the result unchanged, so
tables are never merged. -/
theorem C5_last_symbolclass_wins :
    (∀ (tags : List Tag) (cands : List ExportedTexture) (l : List SymbolClassLink),
        process_tags tags [] = RustResult.ok cands →
        last_symbol_class tags = some l →
        parse_swf_for_textures tags = RustResult.ok (apply_links l cands)) ∧
    (∀ (tags : List Tag) (l0 : List SymbolClassLink),
        (last_symbol_class tags).isSome = true →
        parse_swf_for_textures (Tag.SymbolClass l0 :: tags) = parse_swf_for_textures tags) := by
  constructor
  · intro tags cands l h1 h2
    simp [parse_swf_for_textures, scan_go_split, links_after_last, h1, h2]
  · intro tags l0 h
    obtain ⟨l, hl⟩ := Option.isSome_iff_exists.mp h
    have step : scan_go (none, []) (Tag.SymbolClass l0 :: tags) =
        scan_go (some l0, []) tags := rfl
    simp only [parse_swf_for_textures, step, scan_go_split, links_after_last, hl]

/-- Witness for C5_last_symbolclass_wins: two SymbolClass tables in one
stream; the second one is the one joined, and prepending yet another earlier
table changes nothing. -/
theorem C5_witness :
    process_tags [Tag.SymbolClass [⟨1, "x"⟩], Tag.SymbolClass [⟨2, "y"⟩]] [] =
      RustResult.ok [] ∧
    last_symbol_class [Tag.SymbolClass [⟨1, "x"⟩], Tag.SymbolClass [⟨2, "y"⟩]] =
      some [⟨2, "y"⟩] ∧
    parse_swf_for_textures [Tag.SymbolClass [⟨1, "x"⟩], Tag.SymbolClass [⟨2, "y"⟩]] =
      RustResult.ok (apply_links [⟨2, "y"⟩] []) ∧
    parse_swf_for_textures
        (Tag.SymbolClass [⟨0, "z"⟩] :: [Tag.SymbolClass [⟨1, "x"⟩], Tag.SymbolClass [⟨2, "y"⟩]]) =
      parse_swf_for_textures [Tag.SymbolClass [⟨1, "x"⟩], Tag.SymbolClass [⟨2, "y"⟩]] :=
  ⟨rfl, rfl,
   C5_last_symbolclass_wins.1 _ [] [⟨2, "y"⟩] rfl rfl,
   C5_last_symbolclass_wins.2 _ [⟨0, "z"⟩] rfl⟩

/-- Claim C1: a well-formed document whose procedural-code content declares
exactly one class instance, resolving to name com.exported.textures dot Foo
with supername com.lachhh.flash dot FlashAnimationTexture, and whose last
SymbolClass table is exactly the single link of id 5 to
com.exported.textures.Foo, yields exactly one ExportedTexture, with id
Some 5. -/
theorem C1_single_match :
    ∀ (tags : List Tag) (abc : AbcFile) (inst : Instance) (nm snm : Multiname),
      abc_tags tags = [abc] →
      last_symbol_class tags = some [⟨5, "com.exported.textures.Foo"⟩] →
      abc.instances = [inst] →
      abc.constant_pool.multinames[u32SubOne inst.name]? = some nm →
      get_name nm abc = RustResult.ok ("com.exported.textures", "Foo") →
      abc.constant_pool.multinames[u32SubOne inst.super_name]? = some snm →
      get_name snm abc = RustResult.ok ("com.lachhh.flash", "FlashAnimationTexture") →
      parse_swf_for_textures tags =
        RustResult.ok [⟨⟨"com.exported.textures", "Foo"⟩,
                        ⟨"com.lachhh.flash", "FlashAnimationTexture"⟩, some 5⟩] := by
  intro tags abc inst nm snm habcs hlast hinst hnm hname hsnm hsname
  have hp : process_tags tags [] =
      RustResult.ok [⟨⟨"com.exported.textures", "Foo"⟩,
                      ⟨"com.lachhh.flash", "FlashAnimationTexture"⟩, none⟩] := by
    rw [process_tags_eq_abcs, habcs]
    simp [process_abcs, process_instances, hinst, process_instance, hnm, hname, hsnm, hsname]
  have hjoin : parse_swf_for_textures tags =
      RustResult.ok (apply_links [⟨5, "com.exported.textures.Foo"⟩]
        [⟨⟨"com.exported.textures", "Foo"⟩,
          ⟨"com.lachhh.flash", "FlashAnimationTexture"⟩, none⟩]) := by
    simp [parse_swf_for_textures, scan_go_split, links_after_last, hlast, hp]
  rw [hjoin]
  decide

/-- A sample ABC file: one instance whose multiname indices resolve to the
texture naming convention. -/
def sampleAbc : AbcFile :=
  ⟨⟨["com.exported.textures", "Foo", "com.lachhh.flash", "FlashAnimationTexture"],
    [Namespace.Package 1, Namespace.Package 3],
    [Multiname.QName 1 2, Multiname.QName 2 4]⟩,
   [⟨1, 2⟩]⟩

/-- A sample document: the sample ABC file plus one symbol link of id 5. -/
def sampleTags : List Tag :=
  [Tag.DoAbc2 sampleAbc, Tag.SymbolClass [⟨5, "com.exported.textures.Foo"⟩]]

/-- Witness for C1_single_match at the sample document. -/
theorem C1_witness :
    parse_swf_for_textures sampleTags =
      RustResult.ok [⟨⟨"com.exported.textures", "Foo"⟩,
                      ⟨"com.lachhh.flash", "FlashAnimationTexture"⟩, some 5⟩] :=
  C1_single_match sampleTags sampleAbc ⟨1, 2⟩ (Multiname.QName 1 2) (Multiname.QName 2 4)
    rfl rfl rfl (by decide) (by decide) (by decide) (by decide)

/-- The naming invariant every produced candidate satisfies. -/
def texture_invariant (t : ExportedTexture) : Prop :=
  t.classname.ns = "com.exported.textures" ∧
  t.supername = ⟨"com.lachhh.flash", "FlashAnimationTexture"⟩

/-- One instance step only appends candidates satisfying the invariant. -/
theorem process_instance_inv (abc : AbcFile) (i : Instance)
    (res r : List ExportedTexture) (h : process_instance abc i res = RustResult.ok r) :
    ∀ t ∈ r, t ∈ res ∨ texture_invariant t := by
  intro t ht
  unfold process_instance at h
  cases hn : abc.constant_pool.multinames[u32SubOne i.name]? with
  | none => rw [hn] at h; cases h
  | some nm =>
    rw [hn] at h
    dsimp only at h
    cases hg : get_name nm abc with
    | panicked m => rw [hg] at h; cases h
    | ok name =>
      rw [hg] at h
      dsimp only at h
      cases hsn : abc.constant_pool.multinames[u32SubOne i.super_name]? with
      | none => rw [hsn] at h; cases h
      | some snm =>
        rw [hsn] at h
        dsimp only at h
        cases hg2 : get_name snm abc with
        | panicked m => rw [hg2] at h; cases h
        | ok supername =>
          rw [hg2] at h
          dsimp only at h
          by_cases hcond : (name.1 == "com.exported.textures" &&
              supername.1 == "com.lachhh.flash" &&
              supername.2 == "FlashAnimationTexture") = true
          · rw [if_pos hcond] at h
            cases h
            rcases List.mem_append.mp ht with hmem | hmem
            · exact Or.inl hmem
            · right
              simp only [List.mem_singleton] at hmem
              subst hmem
              simp only [Bool.and_eq_true, beq_iff_eq] at hcond
              obtain ⟨⟨h1, h2⟩, h3⟩ := hcond
              exact ⟨h1, by simp [texture_invariant, h2, h3]⟩
          · rw [if_neg hcond] at h
            cases h
            exact Or.inl ht

/-- The instance loop only appends candidates satisfying the invariant. -/
theorem process_instances_inv (abc : AbcFile) : ∀ (is : List Instance)
    (res r : List ExportedTexture), process_instances abc is res = RustResult.ok r →
    ∀ t ∈ r, t ∈ res ∨ texture_invariant t := by
  intro is
  induction is with
  | nil =>
    intro res r h t ht
    cases h
    exact Or.inl ht
  | cons i rest ih =>
    intro res r h t ht
    unfold process_instances at h
    split at h
    · cases h
    case _ r1 h1 =>
      rcases ih r1 r h t ht with hmem | hinv
      · exact process_instance_inv abc i res r1 h1 t hmem
      · exact Or.inr hinv

/-- The whole candidate scan only produces candidates satisfying the
invariant. -/
theorem process_tags_inv : ∀ (tags : List Tag) (res r : List ExportedTexture),
    process_tags tags res = RustResult.ok r →
    ∀ t ∈ r, t ∈ res ∨ texture_invariant t := by
  intro tags
  induction tags with
  | nil =>
    intro res r h t ht
    cases h
    exact Or.inl ht
  | cons tg rest ih =>
    intro res r h t ht
    cases tg with
    | SymbolClass vec => exact ih res r h t ht
    | DoAbc => exact ih res r h t ht
    | DoAbc2 abc =>
      unfold process_tags at h
      split at h
      · cases h
      case _ r1 h1 =>
        rcases ih r1 r h t ht with hmem | hinv
        · exact process_instances_inv abc abc.instances res r1 h1 t hmem
        · exact Or.inr hinv
    | Other => exact ih res r h t ht

/-- The join step never changes the classname field. -/
theorem apply_link_classname (link : SymbolClassLink) (t : ExportedTexture) :
    (apply_link link t).classname = t.classname := by
  unfold apply_link
  split <;> rfl

/-- The join step never changes the supername field. -/
theorem apply_link_supername (link : SymbolClassLink) (t : ExportedTexture) :
    (apply_link link t).supername = t.supername := by
  unfold apply_link
  split <;> rfl

/-- Every element of the joined list projects, on classname and supername, to
an element of the candidate list. -/
theorem mem_apply_links : ∀ (links : List SymbolClassLink)
    (res : List ExportedTexture) (t2 : ExportedTexture), t2 ∈ apply_links links res →
    ∃ t ∈ res, t2.classname = t.classname ∧ t2.supername = t.supername := by
  intro links
  induction links with
  | nil =>
    intro res t2 h
    exact ⟨t2, h, rfl, rfl⟩
  | cons link rest ih =>
    intro res t2 h
    obtain ⟨t1, ht1, he⟩ := ih (res.map (apply_link link)) t2 h
    obtain ⟨t0, ht0, rfl⟩ := List.mem_map.mp ht1
    exact ⟨t0, ht0, by rw [he.1, apply_link_classname], by rw [he.2, apply_link_supername]⟩

/-- Claim C10: every ExportedTexture produced by parse_swf_for_textures has
classname namespace com.exported.textures and supername the pair
com.lachhh.flash, FlashAnimationTexture; and the symbol-link join phase
mutates only the id field, leaving classname and supername of every element
unchanged. -/
theorem C10_invariant :
    (∀ (tags : List Tag) (res : List ExportedTexture),
        parse_swf_for_textures tags = RustResult.ok res →
        ∀ t ∈ res, t.classname.ns = "com.exported.textures" ∧
          t.supername = ⟨"com.lachhh.flash", "FlashAnimationTexture"⟩) ∧
    (∀ (links : List SymbolClassLink) (res : List ExportedTexture),
        (apply_links links res).map (fun t => (t.classname, t.supername)) =
          res.map (fun t => (t.classname, t.supername))) := by
  constructor
  · intro tags res h t ht
    unfold parse_swf_for_textures at h
    rw [scan_go_split] at h
    cases hp : process_tags tags [] with
    | panicked m => rw [hp] at h; cases h
    | ok r =>
      rw [hp] at h
      cases hl : links_after none tags with
      | none => rw [hl] at h; simp at h
      | some links =>
        rw [hl] at h
        simp only [RustResult.ok.injEq] at h
        subst h
        obtain ⟨t0, ht0, hc, hs⟩ := mem_apply_links links r t ht
        rcases process_tags_inv tags [] r hp t0 ht0 with hmem | hinv
        · cases hmem
        · exact ⟨by rw [hc]; exact hinv.1, by rw [hs]; exact hinv.2⟩
  · intro links
    induction links with
    | nil => intro res; rfl
    | cons link rest ih =>
      intro res
      unfold apply_links
      rw [ih, List.map_map]
      congr 1
      funext t
      simp [Function.comp, apply_link_classname, apply_link_supername]

/-- Witness for C10_invariant at the sample document. -/
theorem C10_witness :
    (⟨⟨"com.exported.textures", "Foo"⟩,
      ⟨"com.lachhh.flash", "FlashAnimationTexture"⟩, some 5⟩ : ExportedTexture).classname.ns =
        "com.exported.textures" ∧
    (⟨⟨"com.exported.textures", "Foo"⟩,
      ⟨"com.lachhh.flash", "FlashAnimationTexture"⟩, some 5⟩ : ExportedTexture).supername =
        ⟨"com.lachhh.flash", "FlashAnimationTexture"⟩ :=
  C10_invariant.1 sampleTags
    [⟨⟨"com.exported.textures", "Foo"⟩, ⟨"com.lachhh.flash", "FlashAnimationTexture"⟩, some 5⟩]
    (by decide) _ (by simp)

/-- Claim C8: a panic occurring strictly inside the render and capture step
is caught at the take_screenshot boundary and converted into an error value
naming the texture; and since processing is strictly sequential and the main
loop propagates that error upward, every texture after the failing one is
halted - the batch outcome for any tail is the same error.  The third
conjunct shows the error also propagates from deeper in the batch, past a
texture that succeeded. -/
theorem C8_render_panic_caught :
    ∀ (mw mh : Nat) (stage_size : ExportedTexture → Nat × Nat)
      (render : ExportedTexture → CaptureOutcome) (t : ExportedTexture)
      (rest : List ExportedTexture) (e : String) (i : Nat),
      t.id = some i →
      render t = CaptureOutcome.panicked e →
      take_screenshot (render t) t =
        Except.error ("Unable to capture frame of " ++ debugFmt t.classname.name ++ ": " ++ e) ∧
      main_export_loop mw mh stage_size render (t :: rest) =
        ProgResult.err ("Unable to capture frame of " ++ debugFmt t.classname.name ++ ": " ++ e) ∧
      (∀ (t0 : ExportedTexture) (i0 : Nat) (img0 : RgbaImage),
        t0.id = some i0 →
        render t0 = CaptureOutcome.completed (some img0) →
        main_export_loop mw mh stage_size render (t0 :: t :: rest) =
          ProgResult.err ("Unable to capture frame of " ++ debugFmt t.classname.name ++ ": " ++ e)) := by
  intro mw mh stage_size render t rest e i hid hrender
  have hshot : take_screenshot (render t) t =
      Except.error ("Unable to capture frame of " ++ debugFmt t.classname.name ++ ": " ++ e) := by
    rw [hrender]
    rfl
  have hloop : main_export_loop mw mh stage_size render (t :: rest) =
      ProgResult.err ("Unable to capture frame of " ++ debugFmt t.classname.name ++ ": " ++ e) := by
    unfold main_export_loop prepare_stage
    rw [hid]
    dsimp only
    rw [hshot]
  refine ⟨hshot, hloop, ?_⟩
  intro t0 i0 img0 hid0 hrender0
  unfold main_export_loop prepare_stage
  rw [hid0]
  dsimp only
  rw [hrender0]
  dsimp only [take_screenshot]
  rw [hloop]

/-- A sample captured atlas bitmap used by witnesses. -/
def sampleImage : RgbaImage := ⟨2048, 2048, fun x y => (x, y, 0, 0)⟩

/-- A sample resolved texture with symbol id 5, used by witnesses. -/
def sampleTexture : ExportedTexture :=
  ⟨⟨"com.exported.textures", "Foo"⟩, ⟨"com.lachhh.flash", "FlashAnimationTexture"⟩, some 5⟩

/-- Witness for C8_render_panic_caught: a concrete batch of two textures
whose second render panics. -/
theorem C8_witness :
    take_screenshot (CaptureOutcome.panicked "boom") sampleTexture =
      Except.error ("Unable to capture frame of " ++ debugFmt "Foo" ++ ": " ++ "boom") ∧
    main_export_loop 400 300 (fun _ => (10, 20)) (fun _ => CaptureOutcome.panicked "boom")
        [sampleTexture] =
      ProgResult.err ("Unable to capture frame of " ++ debugFmt "Foo" ++ ": " ++ "boom") :=
  ⟨(C8_render_panic_caught 400 300 (fun _ => (10, 20)) (fun _ => CaptureOutcome.panicked "boom")
      sampleTexture [] "boom" 5 rfl rfl).1,
   (C8_render_panic_caught 400 300 (fun _ => (10, 20)) (fun _ => CaptureOutcome.panicked "boom")
      sampleTexture [] "boom" 5 rfl rfl).2.1⟩

/-- Claim C4: the crop offset equals the rounded centering formula over the
document dimensions - the integer model equals round of (render - m) / 2,
rounding half away from zero as f32::round does; with the constants 2048 and
document dimensions 400 by 300 the offsets are exactly 824 and 874; and the
main loop extracts exactly the sub-rectangle at those offsets, of the size
measured for the texture, from the captured atlas bitmap. -/
theorem C4_atlas_offset :
    (∀ render m : Nat,
        (atlas_offset render m : ℤ) = f32_round (((render - m : Nat) : ℚ) / 2)) ∧
    atlas_offset RENDER_WIDTH 400 = 824 ∧
    atlas_offset RENDER_HEIGHT 300 = 874 ∧
    (∀ (stage_size : ExportedTexture → Nat × Nat)
        (render : ExportedTexture → CaptureOutcome)
        (t : ExportedTexture) (img : RgbaImage) (i : Nat),
        t.id = some i →
        render t = CaptureOutcome.completed (some img) →
        main_export_loop 400 300 stage_size render [t] =
          ProgResult.ok [(t.classname.name ++ ".png",
            img.view 824 874 (stage_size t).1 (stage_size t).2)]) := by
  refine ⟨?_, by decide, by decide, ?_⟩
  · intro render m
    unfold atlas_offset f32_round
    rw [if_pos (by positivity)]
    have h1 : ((render - m : ℕ) : ℚ) / 2 + 1 / 2 =
        (((render - m : ℕ) : ℤ) + 1 : ℤ) / ((2 : ℕ) : ℚ) := by
      push_cast
      ring
    rw [h1, Rat.floor_intCast_div_natCast]
    push_cast [Int.ofNat_ediv]
    norm_num
  · intro stage_size render t img i hid hrender
    rcases hss : stage_size t with ⟨w, h⟩
    unfold main_export_loop prepare_stage
    rw [hid]
    dsimp only
    rw [hss]
    dsimp only
    rw [hrender]
    dsimp only [take_screenshot]
    unfold main_export_loop
    dsimp only
    rw [show atlas_offset RENDER_WIDTH 400 = 824 from by decide,
        show atlas_offset RENDER_HEIGHT 300 = 874 from by decide]

/-- Witness for C4_atlas_offset: concrete texture, sizes and captured image. -/
theorem C4_witness :
    main_export_loop 400 300 (fun _ => (10, 20))
        (fun _ => CaptureOutcome.completed (some sampleImage)) [sampleTexture] =
      ProgResult.ok [("Foo" ++ ".png", sampleImage.view 824 874 10 20)] :=
  C4_atlas_offset.2.2.2 (fun _ => (10, 20))
    (fun _ => CaptureOutcome.completed (some sampleImage)) sampleTexture sampleImage 5 rfl rfl

end ExportTextures
